import Mathlib

/-!
Verification of the PrawWrapper repository (Watchful1/PrawWrapper).

This file shallowly embeds the parts of the source needed by the claims:

* `src/praw_wrapper/reddit.py` — the `Reddit` facade with rate-limit
  retry (`run_function`, `get_ratelimit_seconds`), dry-run mode, the
  existence probes (`subreddit_exists`, `redditor_exists`) and the
  mutating facade operations;
* `src/praw_wrapper/__init__.py` — the bounded recency set (`Queue`),
  the pushshift endpoint selector (`get_pushshift_client`,
  `PushshiftClient.failed`, `lag_seconds`) and the backfill scan
  (`get_keyword_comments`);
* `src/praw_wrapper/ingest.py` — `IngestDatabase.get_or_add_client`.

External effects (network calls of the praw library, HTTP fetches of the
pushshift mirrors, `time.sleep`, logging) are made explicit: a call to the
wrapped function is modelled by consuming one element of a supplied list of
outcomes, sleeps are recorded in a returned trace, and exceptions that the
Python code lets propagate are modelled with `Except.error`.
-/

namespace PrawWrapper

/-! ### `ReturnType` (reddit.py lines 21–40)

The closed outcome taxonomy.  `reddit.py` has nineteen members (the
`__init__.py` copy lacks the last one); the adapter claims cite
`reddit.py`, so that variant is embedded. -/

inductive ReturnType where
  | SUCCESS
  | INVALID_USER
  | USER_DOESNT_EXIST
  | FORBIDDEN
  | THREAD_LOCKED
  | DELETED_COMMENT
  | QUARANTINED
  | RATELIMIT
  | THREAD_REPLIED
  | NOTHING_RETURNED
  | SUBREDDIT_NOT_ENABLED
  | SUBMISSION_NOT_PROCESSED
  | NOT_WHITELISTED_BY_USER_MESSAGE
  | PM_MODERATOR_RESTRICTION
  | SUBREDDIT_OUTBOUND_LINKING_DISALLOWED
  | SUBREDDIT_LINKING_DISALLOWED
  | COMMENT_UNREPLIABLE
  | SOMETHING_IS_BROKEN
  | COMMENT_GUIDANCE_VALIDATION_FAILED
  deriving DecidableEq, Repr

/-- The `.name` of each enum member, as Python's `Enum` exposes it. -/
def ReturnType.name : ReturnType → String
  | .SUCCESS => "SUCCESS"
  | .INVALID_USER => "INVALID_USER"
  | .USER_DOESNT_EXIST => "USER_DOESNT_EXIST"
  | .FORBIDDEN => "FORBIDDEN"
  | .THREAD_LOCKED => "THREAD_LOCKED"
  | .DELETED_COMMENT => "DELETED_COMMENT"
  | .QUARANTINED => "QUARANTINED"
  | .RATELIMIT => "RATELIMIT"
  | .THREAD_REPLIED => "THREAD_REPLIED"
  | .NOTHING_RETURNED => "NOTHING_RETURNED"
  | .SUBREDDIT_NOT_ENABLED => "SUBREDDIT_NOT_ENABLED"
  | .SUBMISSION_NOT_PROCESSED => "SUBMISSION_NOT_PROCESSED"
  | .NOT_WHITELISTED_BY_USER_MESSAGE => "NOT_WHITELISTED_BY_USER_MESSAGE"
  | .PM_MODERATOR_RESTRICTION => "PM_MODERATOR_RESTRICTION"
  | .SUBREDDIT_OUTBOUND_LINKING_DISALLOWED => "SUBREDDIT_OUTBOUND_LINKING_DISALLOWED"
  | .SUBREDDIT_LINKING_DISALLOWED => "SUBREDDIT_LINKING_DISALLOWED"
  | .COMMENT_UNREPLIABLE => "COMMENT_UNREPLIABLE"
  | .SOMETHING_IS_BROKEN => "SOMETHING_IS_BROKEN"
  | .COMMENT_GUIDANCE_VALIDATION_FAILED => "COMMENT_GUIDANCE_VALIDATION_FAILED"

/-- Iteration order of `for return_type in ReturnType` (declaration order). -/
def allReturnTypes : List ReturnType :=
  [.SUCCESS, .INVALID_USER, .USER_DOESNT_EXIST, .FORBIDDEN, .THREAD_LOCKED,
   .DELETED_COMMENT, .QUARANTINED, .RATELIMIT, .THREAD_REPLIED,
   .NOTHING_RETURNED, .SUBREDDIT_NOT_ENABLED, .SUBMISSION_NOT_PROCESSED,
   .NOT_WHITELISTED_BY_USER_MESSAGE, .PM_MODERATOR_RESTRICTION,
   .SUBREDDIT_OUTBOUND_LINKING_DISALLOWED, .SUBREDDIT_LINKING_DISALLOWED,
   .COMMENT_UNREPLIABLE, .SOMETHING_IS_BROKEN,
   .COMMENT_GUIDANCE_VALIDATION_FAILED]

/-- `for return_type in ReturnType: if err.error_type == return_type.name`
(reddit.py lines 144–145): exact string match over the declaration order. -/
def lookupReturnType (error_type : String) : Option ReturnType :=
  allReturnTypes.find? (fun rt => rt.name = error_type)

/-! ### `get_ratelimit_seconds` (reddit.py lines 124–136)

The regex `([0-9]{1,3}) (milliseconds?|seconds?|minutes?)` applied to an
error item's message is abstracted to its match result: `none` when the
search fails, `some (n, unit)` when it matches, where `n` is the (at most
three-digit) captured amount.  An error item carries its `error_type`
string and that match result. -/

inductive TimeUnit where
  | milliseconds
  | seconds
  | minutes
  deriving DecidableEq, Repr

structure ErrItem where
  error_type : String
  /-- `self.ratelimit_regex.search(item.message)`, abstracted: the captured
  amount and unit, or `none` when the message has no parseable duration. -/
  ratelimit_match : Option (Nat × TimeUnit)
  deriving DecidableEq, Repr

/-- Lines 124–136: scan `err.items` for the first item whose `error_type`
is `"RATELIMIT"`; on it, return `none` if the regex does not match
(the `break`), otherwise the amount converted to seconds
(`*60` for minutes, `0` for milliseconds) plus one. -/
def get_ratelimit_seconds : List ErrItem → Option Nat
  | [] => none
  | item :: rest =>
    if item.error_type = "RATELIMIT" then
      match item.ratelimit_match with
      | none => none
      | some (n, u) =>
        some ((match u with
               | .minutes => n * 60
               | .milliseconds => 0
               | .seconds => n) + 1)
    else get_ratelimit_seconds rest

/-! ### `run_function` (reddit.py lines 138–176)

One invocation of the wrapped function is modelled by one element of a
list of `CallOutcome`s: a normal return, a `praw.exceptions.APIException`
with an `error_type` and `items`, a `prawcore.exceptions.Forbidden`, or an
`IndexError`.  The recursive retry consumes the tail of the list.  The
returned `RunResult` records the output, the outcome code, the sleep
durations performed (in order) and the number of invocations made.
`record_rate_limits` (metrics only) has no functional effect and is not
modelled. -/

inductive CallOutcome where
  | success (v : Nat)
  | apiError (error_type : String) (items : List ErrItem)
  | forbidden
  | indexError
  deriving DecidableEq, Repr

inductive RunError where
  /-- the `raise` at line 167: the APIException's `error_type` matched no
  `ReturnType` member, so the exception propagates -/
  | unhandled (error_type : String)
  /-- the `TypeError` raised at line 149 by `seconds += 10` when
  `get_ratelimit_seconds` returned `None` -/
  | typeError
  /-- the supplied outcome list was exhausted (model artifact: the Python
  function can always be invoked once more) -/
  | traceExhausted
  deriving DecidableEq, Repr

structure RunResult where
  output : Option Nat
  result : ReturnType
  /-- durations passed to `time.sleep`, in order -/
  sleeps : List Int
  /-- number of invocations of the wrapped function -/
  calls : Nat
  deriving DecidableEq, Repr

/-- Lines 138–176.  On a `RATELIMIT` APIException the code runs
`seconds = self.get_ratelimit_seconds(err)` then `seconds += 10`
(line 149) *before* the `if seconds is not None` test, so when no duration
parses the addition raises `TypeError` and the `else` branch at lines
158–164 (log and retry once with budget 0) is unreachable.  When a
duration parses, `seconds` is the parsed value plus one (from
`get_ratelimit_seconds`) plus ten; if that is under the remaining budget
the code sleeps for it and recurses with the budget decremented by it,
discarding the recursive call's return value; otherwise it logs and falls
through, returning the rate-limited outcome. -/
def run_function : List CallOutcome → Int → Except RunError RunResult
  | [], _ => .error .traceExhausted
  | outcome :: rest, retry_seconds =>
    match outcome with
    | .success v => .ok ⟨some v, .SUCCESS, [], 1⟩
    | .forbidden => .ok ⟨none, .FORBIDDEN, [], 1⟩
    | .indexError => .ok ⟨none, .QUARANTINED, [], 1⟩
    | .apiError error_type items =>
      match lookupReturnType error_type with
      | none => .error (.unhandled error_type)
      | some rt =>
        if rt = ReturnType.RATELIMIT then
          match get_ratelimit_seconds items with
          | none => .error .typeError
          | some s =>
            let seconds : Int := (s : Int) + 10
            if seconds < retry_seconds then
              match run_function rest (retry_seconds - seconds) with
              | .error e => .error e
              | .ok sub => .ok ⟨none, .RATELIMIT, seconds :: sub.sleeps, 1 + sub.calls⟩
            else
              .ok ⟨none, .RATELIMIT, [], 1⟩
        else .ok ⟨none, rt, [], 1⟩

/-! ### The bounded recency set `Queue` (\_\_init\_\_.py lines 49–66)

Items are identifiers; they are embedded as `Nat`.  `put` on a full queue
pops the front of the backing list — on an empty list Python's
`list.pop(0)` raises `IndexError`, modelled by `none` (reachable only when
`max_size = 0`).  The `if removed not in self.set` guard only logs in the
sad branch; the functional content is the conditional `set.remove`. -/

structure Queue where
  list : List Nat
  max_size : Nat
  set : Finset Nat
  deriving DecidableEq

/-- `Queue.__init__` (lines 50–53). -/
def Queue.mk0 (max_size : Nat) : Queue := ⟨[], max_size, ∅⟩

/-- `Queue.put` (lines 55–63). -/
def Queue.put (q : Queue) (item : Nat) : Option Queue :=
  if q.max_size ≤ q.list.length then
    match q.list with
    | [] => none
    | removed :: rest =>
      let s := if removed ∈ q.set then q.set.erase removed else q.set
      some ⟨rest ++ [item], q.max_size, insert item s⟩
  else
    some ⟨q.list ++ [item], q.max_size, insert item q.set⟩

/-- `Queue.contains` (lines 65–66). -/
def Queue.contains (q : Queue) (item : Nat) : Bool := item ∈ q.set

/-- A sequence of `put` calls, left to right. -/
def Queue.putList (q : Queue) : List Nat → Option Queue
  | [] => some q
  | x :: xs => (q.put x).bind (fun q' => Queue.putList q' xs)

/-! ### Pushshift endpoint selection (\_\_init\_\_.py lines 95–178, 391–436)

Only the state consulted by `failed`, `lag_seconds` and
`get_pushshift_client` is embedded; timestamps are integral seconds, so
the `round` in `lag_seconds` is the identity. -/

inductive PushshiftType where
  | PROD
  | BETA
  | AUTO
  deriving DecidableEq, Repr

structure PushshiftClient where
  client_type : PushshiftType
  failures : Nat
  /-- `self.latest`: timestamp of the most recent item seen, or `None` -/
  latest : Option Int
  /-- `self.lag_checked`: when the lag was last probed, or `None` -/
  lag_checked : Option Int
  deriving DecidableEq, Repr

/-- `PushshiftClient.failed` (lines 114–115). -/
def PushshiftClient.failed (c : PushshiftClient) : Bool := c.failures > 0

/-- `PushshiftClient.lag_seconds` (lines 172–175): `0` when either field
is unset, otherwise `max(lag_checked - latest, 0)`. -/
def PushshiftClient.lag_seconds (c : PushshiftClient) : Int :=
  match c.lag_checked, c.latest with
  | none, _ => 0
  | _, none => 0
  | some lc, some lt => max (lc - lt) 0

/-- `Reddit.get_pushshift_client` (lines 414–436), as a function of the
configured mode and the two client states.  (The source's final `else`
returning the prod client is unreachable: the mode is one of the three
enum members.) -/
def get_pushshift_client (mode : PushshiftType)
    (prod beta : PushshiftClient) : PushshiftClient :=
  match mode with
  | .PROD => prod
  | .BETA => beta
  | .AUTO =>
    if prod.failed || beta.failed then
      if beta.lag_seconds < 600 then beta
      else if prod.lag_seconds < 600 then prod
      else if prod.lag_seconds < beta.lag_seconds then prod
      else beta
    else if beta.lag_seconds < 120 then beta
    else if prod.lag_seconds < beta.lag_seconds then prod
    else beta

/-! ### The backfill scan `get_keyword_comments` (\_\_init\_\_.py lines 443–506)

A fetched comment is its `id` and `created_utc`; datetimes are integral
seconds (`datetime.utcfromtimestamp` and the `timedelta(seconds=1)`
advance become integer operations).  Each iteration of the `while True`
loop performs one `client.get_comments` call; those calls are abstracted
to a supplied list of page results (`none` for a failed fetch, `some page`
for a 200 response), consumed in order — the `before_timestamp` cursor
and the 100/1000 page-size choice only shape what the HTTP server
returns, which the page list already fixes.  Lag checking, client
selection and the failure-threshold logging mutate no state consulted by
the returned list and are not modelled.  Exhausting the supplied page
list is a model artifact reported as `none`. -/

structure PsComment where
  id : Nat
  created_utc : Int
  deriving DecidableEq, Repr

/-- The `for comment in comments` body (lines 479–487): walk the page in
order; at the first comment with `last_seen > comment_datetime` set
`found_seen` and stop; otherwise keep the comment unless its id is in the
recency set.  Returns the kept comments and the `found_seen` flag. -/
def pageScan (last_seen : Int) (processed : Finset Nat) :
    List PsComment → List PsComment × Bool
  | [] => ([], false)
  | c :: rest =>
    if last_seen > c.created_utc then ([], true)
    else
      let r := pageScan last_seen processed rest
      (if c.id ∈ processed then r.1 else c :: r.1, r.2)

/-- The `while True` loop (lines 459–498): a `none` page (fetch failure)
or an empty page returns `[]`, discarding anything accumulated; otherwise
the page is scanned, and the loop stops returning the accumulated
comments when `found_seen`, else continues with the next page. -/
def keywordLoop (last_seen : Int) (processed : Finset Nat)
    (acc : List PsComment) : List (Option (List PsComment)) → Option (List PsComment)
  | [] => none
  | none :: _ => some []
  | some page :: rest =>
    if page.isEmpty then some []
    else
      let r := pageScan last_seen processed page
      let acc' := acc ++ r.1
      if r.2 then some acc'
      else keywordLoop last_seen processed acc' rest

/-- `Reddit.get_keyword_comments` (lines 443–506): when the recency
queue's backing list is empty, `last_seen` is advanced by one second
(lines 444–445) before the loop; membership tests use the queue's set. -/
def get_keyword_comments (q : Queue) (last_seen : Int)
    (pages : List (Option (List PsComment))) : Option (List PsComment) :=
  let ls := if q.list.isEmpty then last_seen + 1 else last_seen
  keywordLoop ls q.set [] pages

/-! ### Mutating facade operations and dry-run mode (reddit.py)

Each operation is embedded as a function of the `no_post` flag and of the
outcome that delegating to the external library would produce (the
behavior of `run_function` itself is embedded above; here it is abstracted
to the `ReturnType` it returns, paired with its `output` where the caller
consults it).  Alongside its return value each embedded operation reports
whether the external library was invoked (`Bool`, second or last
component), so "performs no call to the external library" is a statement
about the model.  `log.debug`/`log.info`/`log.warning` calls have no
functional effect; the one the claims mention — the dry-run
`log.info(body)` — is recorded by `send_message` as a third component. -/

/-- `Reddit.reply_message` (lines 189–196): dry-run returns `SUCCESS`
without calling out; otherwise the delegated result. -/
def reply_message (no_post : Bool) (delegate : ReturnType) : ReturnType × Bool :=
  if no_post then (ReturnType.SUCCESS, false)
  else (delegate, true)

/-- `Reddit.mark_read` (lines 198–202): returns nothing; calls
`message.mark_read()` only when not in dry-run.  The embedded value is
whether the external call happened. -/
def mark_read (no_post : Bool) : Bool :=
  if no_post then false else true

/-- `Reddit.edit_comment` (lines 242–251): in dry-run the body is logged
and the function falls through without a `return`, so Python yields
`None` — embedded as `none`; otherwise the delegated result. -/
def edit_comment (no_post : Bool) (delegate : ReturnType) :
    Option ReturnType × Bool :=
  if no_post then (none, false)
  else (some delegate, true)

/-- `Reddit.delete_comment` (lines 253–263): in dry-run no call is made
and `True` is returned; otherwise `comment.delete()` is attempted and any
exception yields `False`. `deleteRaises` is whether that call raises. -/
def delete_comment (no_post : Bool) (deleteRaises : Bool) : Bool × Bool :=
  if no_post then (true, false)
  else if deleteRaises then (false, true)
  else (true, true)

/-- `Reddit.send_message` (lines 265–276): the `[deleted]` guard comes
first and returns `INVALID_USER` with no call and no body log; then the
dry-run branch logs the body and returns `SUCCESS`; otherwise the call is
delegated.  Result: (outcome, external call made, body logged). -/
def send_message (no_post : Bool) (user_name : String)
    (delegate : ReturnType) : ReturnType × Bool × Bool :=
  if user_name = "[deleted]" then (ReturnType.INVALID_USER, false, false)
  else if no_post then (ReturnType.SUCCESS, false, true)
  else (delegate, true, false)

/-- `Reddit.reply` (lines 278–290): dry-run returns the sentinel id
`"xxxxxx"` and `SUCCESS` with no call; otherwise the delegated
`(output, result)` is post-processed: a non-`None` output yields its id,
a `None` output converts `SUCCESS` into `NOTHING_RETURNED`. -/
def reply (no_post : Bool) (delegate : Option String × ReturnType) :
    (Option String × ReturnType) × Bool :=
  if no_post then ((some "xxxxxx", ReturnType.SUCCESS), false)
  else
    match delegate with
    | (some id, result) => ((some id, result), true)
    | (none, result) =>
      if result = ReturnType.SUCCESS then ((none, ReturnType.NOTHING_RETURNED), true)
      else ((none, result), true)

/-- `Reddit.reply_comment` (lines 292–296): delegates to `reply`. -/
def reply_comment (no_post : Bool) (delegate : Option String × ReturnType) :
    (Option String × ReturnType) × Bool :=
  reply no_post delegate

/-- `Reddit.reply_submission` (lines 298–302): delegates to `reply`. -/
def reply_submission (no_post : Bool) (delegate : Option String × ReturnType) :
    (Option String × ReturnType) × Bool :=
  reply no_post delegate

/-- `Reddit.quarantine_opt_in` (lines 308–321): in dry-run no call and
`True`; otherwise `opt_in()` is attempted, `Forbidden` and any other
exception both yield `False`, success yields `True`. -/
inductive OptInOutcome where
  | ok
  | forbidden
  | otherError
  deriving DecidableEq, Repr

def quarantine_opt_in (no_post : Bool) (delegate : OptInOutcome) : Bool × Bool :=
  if no_post then (true, false)
  else
    match delegate with
    | .ok => (true, true)
    | .forbidden => (false, true)
    | .otherError => (false, true)

/-! ### Existence probes (reddit.py lines 218–240)

The `_fetch()` call either succeeds or raises one of the prawcore
exceptions; other exceptions propagate.  `Except.error` models a
propagating exception. -/

inductive FetchResult where
  | ok
  | notFound
  | redirect
  | forbidden
  | badRequest
  | otherError
  deriving DecidableEq, Repr

/-- `Reddit.subreddit_exists` (lines 218–230): `False` on `Redirect`,
`NotFound`, `Forbidden` or `BadRequest`; `True` on success; anything else
propagates. -/
def subreddit_exists (fetch : FetchResult) : Except FetchResult Bool :=
  match fetch with
  | .ok => .ok true
  | .redirect => .ok false
  | .notFound => .ok false
  | .forbidden => .ok false
  | .badRequest => .ok false
  | .otherError => .error .otherError

/-- `Reddit.redditor_exists` (lines 232–240): only `NotFound` is caught
(`False`); success yields `True`; every other exception propagates. -/
def redditor_exists (fetch : FetchResult) : Except FetchResult Bool :=
  match fetch with
  | .ok => .ok true
  | .notFound => .ok false
  | .redirect => .error .redirect
  | .forbidden => .error .forbidden
  | .badRequest => .error .badRequest
  | .otherError => .error .otherError

/-! ### `IngestDatabase.get_or_add_client` (ingest.py lines 54–70)

The `clients` table (ingest.py lines 130–143): surrogate integer primary
key, name column with a unique constraint.  The session is embedded as
the list of rows plus the next surrogate id; `session.query(...).first()`
is a first-match scan and `session.add` appends the new row with the next
id (the relational view of SQLAlchemy's autoflush-then-assign).  When
both `client_name` and `default_client_id` are `None` the source returns
`None` without touching the table; when a lookup by `default_client_id`
misses, the source creates `Client(client_name)` with `client_name =
None`, so the name column is an `Option String`. -/

structure ClientRow where
  id : Nat
  name : Option String
  deriving DecidableEq, Repr

structure IngestDB where
  clients : List ClientRow
  nextId : Nat
  default_client_id : Option Nat
  deriving DecidableEq, Repr

def get_or_add_client (db : IngestDB) (client_name : Option String) :
    Option ClientRow × IngestDB :=
  let found : Option (Option ClientRow) :=
    match client_name with
    | some nm => some (db.clients.find? (fun c => c.name = some nm))
    | none =>
      match db.default_client_id with
      | some did => some (db.clients.find? (fun c => c.id = did))
      | none => none
  match found with
  | none => (none, db)
  | some (some c) => (some c, db)
  | some none =>
    let c : ClientRow := ⟨db.nextId, client_name⟩
    (some c, { db with clients := db.clients ++ [c], nextId := db.nextId + 1 })

/-! ## Theorems -/

/-! ### C1, C3 — rate-limit retry in `run_function` -/

lemma lookup_RATELIMIT : lookupReturnType "RATELIMIT" = some ReturnType.RATELIMIT := by
  decide

lemma get_ratelimit_seconds_parsed (w : Nat) :
    get_ratelimit_seconds [⟨"RATELIMIT", some (w, TimeUnit.seconds)⟩] = some (w + 1) := by
  simp [get_ratelimit_seconds]

/-- C1 (corrected claim, as stated it is false — see `C1_counterexample`):
when the caught rate-limited outcome carries a parseable wait of `w`
seconds, the adapter compares `w + 11` (the parsed wait, plus one from
`get_ratelimit_seconds`' round-up, plus the fixed ten of line 149) with
the retry budget `b`: if `w + 11 < b` it sleeps `w + 11` seconds and
retries with budget `b - (w + 11)` (discarding the retry's return value
and keeping the rate-limited outcome), and otherwise it returns the
rate-limited outcome without sleeping or retrying.  In particular a
parsed wait of 20 s against a budget of 30 s does *not* sleep, since
`20 + 11 = 31 ≥ 30`. -/
theorem C1_rate_limit_budget (w : Nat) (b : Int) (rest : List CallOutcome) (sub : RunResult) :
    ((w : Int) + 11 < b →
      run_function rest (b - ((w : Int) + 11)) = Except.ok sub →
      run_function
          (CallOutcome.apiError "RATELIMIT" [⟨"RATELIMIT", some (w, TimeUnit.seconds)⟩] :: rest) b =
        Except.ok ⟨none, ReturnType.RATELIMIT, ((w : Int) + 11) :: sub.sleeps, 1 + sub.calls⟩) ∧
    (b ≤ (w : Int) + 11 →
      run_function
          (CallOutcome.apiError "RATELIMIT" [⟨"RATELIMIT", some (w, TimeUnit.seconds)⟩] :: rest) b =
        Except.ok ⟨none, ReturnType.RATELIMIT, [], 1⟩) := by
  have hcast : ((w + 1 : Nat) : Int) + 10 = (w : Int) + 11 := by push_cast; ring
  constructor
  · intro hlt hsub
    simp only [run_function, lookup_RATELIMIT, get_ratelimit_seconds_parsed, hcast, if_true]
    rw [if_pos hlt, hsub]
  · intro hge
    simp only [run_function, lookup_RATELIMIT, get_ratelimit_seconds_parsed, hcast, if_true]
    rw [if_neg (by omega)]

/-- Witness for `C1_rate_limit_budget`: a parsed wait of 20 s against a
budget of 32 s sleeps 31 s and retries once with 1 s of budget left,
while against a budget of 30 s it neither sleeps nor retries. -/
theorem C1_rate_limit_budget_witness :
    run_function
        (CallOutcome.apiError "RATELIMIT" [⟨"RATELIMIT", some (20, TimeUnit.seconds)⟩] ::
          [CallOutcome.success 5]) 32 =
      Except.ok ⟨none, ReturnType.RATELIMIT, [31], 2⟩ ∧
    run_function
        (CallOutcome.apiError "RATELIMIT" [⟨"RATELIMIT", some (20, TimeUnit.seconds)⟩] ::
          [CallOutcome.success 5]) 30 =
      Except.ok ⟨none, ReturnType.RATELIMIT, [], 1⟩ := by
  constructor
  · exact (C1_rate_limit_budget 20 32 [CallOutcome.success 5]
      ⟨some 5, ReturnType.SUCCESS, [], 1⟩).1 (by decide) (by rfl)
  · exact (C1_rate_limit_budget 20 30 [CallOutcome.success 5]
      ⟨some 5, ReturnType.SUCCESS, [], 1⟩).2 (by decide)

/-- C1 counterexample to the claim as stated: for a parsed wait of 20
seconds and a retry budget of 30 seconds, `run_function` performs no
sleep and no retry (one call, empty sleep trace) and returns the
rate-limited outcome — because the code compares `20 + 1 + 10 = 31`, not
20, against the budget.  The claim predicted a sleep of about 20 s and a
retry with about 10 s of budget. -/
theorem C1_counterexample :
    run_function
        [CallOutcome.apiError "RATELIMIT" [⟨"RATELIMIT", some (20, TimeUnit.seconds)⟩],
         CallOutcome.success 5] 30 =
      Except.ok ⟨none, ReturnType.RATELIMIT, [], 1⟩ := by
  rfl

/-- C3: when the rate-limited error message has no parseable wait
duration (`get_ratelimit_seconds` yields `none`), `run_function` does not
retry at all: line 149's `seconds += 10` raises `TypeError` on `None`, so
the call fails, and the retry-once branch at lines 158–164 is
unreachable.  This contradicts the claim (and the code's own log message
"retrying once"), which say the call is retried once with zero budget. -/
theorem C3_unparseable_wait_raises :
    run_function [CallOutcome.apiError "RATELIMIT" [⟨"RATELIMIT", none⟩]] 0 =
      Except.error RunError.typeError := by
  rfl

/-! ### C4 — auto endpoint selection -/

/-- C4 counterexample to the claim as stated: in mode auto with the
primary endpoint failed, primary lag 100 s and beta lag 500 s — both
under ten minutes — the selector returns the *beta* endpoint, which has
the strictly larger lag, not the lower-lag endpoint the claim requires
when both qualify. -/
theorem C4_counterexample :
    get_pushshift_client PushshiftType.AUTO
        ⟨PushshiftType.PROD, 1, some 0, some 100⟩ ⟨PushshiftType.BETA, 0, some 0, some 500⟩ =
      ⟨PushshiftType.BETA, 0, some 0, some 500⟩ ∧
    (PushshiftClient.failed ⟨PushshiftType.PROD, 1, some 0, some 100⟩ = true) ∧
    PushshiftClient.lag_seconds ⟨PushshiftType.PROD, 1, some 0, some 100⟩ = 100 ∧
    PushshiftClient.lag_seconds ⟨PushshiftType.BETA, 0, some 0, some 500⟩ = 500 := by
  refine ⟨?_, by decide, by decide, by decide⟩
  rfl

/-- C4 (corrected): in mode auto, when at least one endpoint has a
nonzero failure count the selector returns beta whenever beta's lag is
under ten minutes, else primary when primary's lag is under ten minutes,
else whichever has the strictly lower lag (beta on ties); when neither
endpoint has failed it returns beta when beta's lag is under two minutes
and otherwise whichever has the strictly lower lag (beta on ties). -/
theorem C4_auto_selection (prod beta : PushshiftClient) :
    ((prod.failed || beta.failed) = true →
      (beta.lag_seconds < 600 →
        get_pushshift_client PushshiftType.AUTO prod beta = beta) ∧
      (600 ≤ beta.lag_seconds → prod.lag_seconds < 600 →
        get_pushshift_client PushshiftType.AUTO prod beta = prod) ∧
      (600 ≤ beta.lag_seconds → 600 ≤ prod.lag_seconds →
        get_pushshift_client PushshiftType.AUTO prod beta =
          if prod.lag_seconds < beta.lag_seconds then prod else beta)) ∧
    ((prod.failed || beta.failed) = false →
      (beta.lag_seconds < 120 →
        get_pushshift_client PushshiftType.AUTO prod beta = beta) ∧
      (120 ≤ beta.lag_seconds →
        get_pushshift_client PushshiftType.AUTO prod beta =
          if prod.lag_seconds < beta.lag_seconds then prod else beta)) := by
  constructor
  · intro hf
    refine ⟨fun hb => ?_, fun hb hp => ?_, fun hb hp => ?_⟩ <;>
      simp only [get_pushshift_client, hf, if_true]
    · rw [if_pos hb]
    · rw [if_neg (by omega), if_pos hp]
    · rw [if_neg (by omega), if_neg (by omega)]
  · intro hf
    refine ⟨fun hb => ?_, fun hb => ?_⟩ <;>
      simp only [get_pushshift_client, hf, Bool.false_eq_true, if_false]
    · rw [if_pos hb]
    · rw [if_neg (by omega)]

/-- Witness for `C4_auto_selection`, at the spec's three examples: primary
failed with 15 min lag against beta unfailed with 5 min lag picks beta;
neither failed with beta lag 90 s picks beta; neither failed with beta
lag 300 s and primary lag 200 s picks primary. -/
theorem C4_auto_selection_witness :
    get_pushshift_client PushshiftType.AUTO
        ⟨PushshiftType.PROD, 1, some 0, some 900⟩ ⟨PushshiftType.BETA, 0, some 0, some 300⟩ =
      ⟨PushshiftType.BETA, 0, some 0, some 300⟩ ∧
    get_pushshift_client PushshiftType.AUTO
        ⟨PushshiftType.PROD, 0, some 0, some 500⟩ ⟨PushshiftType.BETA, 0, some 0, some 90⟩ =
      ⟨PushshiftType.BETA, 0, some 0, some 90⟩ ∧
    get_pushshift_client PushshiftType.AUTO
        ⟨PushshiftType.PROD, 0, some 0, some 200⟩ ⟨PushshiftType.BETA, 0, some 0, some 300⟩ =
      ⟨PushshiftType.PROD, 0, some 0, some 200⟩ := by
  refine ⟨?_, ?_, ?_⟩
  · exact ((C4_auto_selection _ _).1 (by decide)).1 (by decide)
  · exact ((C4_auto_selection _ _).2 (by decide)).1 (by decide)
  · have h := ((C4_auto_selection
      ⟨PushshiftType.PROD, 0, some 0, some 200⟩
      ⟨PushshiftType.BETA, 0, some 0, some 300⟩).2 (by decide)).2 (by decide)
    rwa [if_pos (by decide)] at h

/-! ### C7, C10 — dry-run mode and the `[deleted]` guard -/

/-- C7 counterexample to the claim as stated: `edit_comment` in dry-run
mode returns no outcome at all (Python falls through and yields `None`,
embedded as `none`) rather than reporting a successful outcome. -/
theorem C7_counterexample :
    edit_comment true ReturnType.SUCCESS = (none, false) ∧
    (none : Option ReturnType) ≠ some ReturnType.SUCCESS := by
  exact ⟨rfl, by decide⟩

/-- C7 (corrected): with `no_post` true no mutating facade operation
calls the external library (second/`Bool` component `false` throughout),
and each reports success — `reply_message`, `reply_comment`,
`reply_submission` (sentinel id and success), `delete_comment`,
`quarantine_opt_in` (`true`), `mark_read` (no outcome to report) —
except that `edit_comment` returns no outcome (`none`) and
`send_message` reports invalid-user for the user name `"[deleted]"`. -/
theorem C7_dry_run (d : ReturnType) (od : Option String × ReturnType)
    (dd : Bool) (oi : OptInOutcome) (u : String) :
    reply_message true d = (ReturnType.SUCCESS, false) ∧
    reply_comment true od = ((some "xxxxxx", ReturnType.SUCCESS), false) ∧
    reply_submission true od = ((some "xxxxxx", ReturnType.SUCCESS), false) ∧
    send_message true u d =
      (if u = "[deleted]" then (ReturnType.INVALID_USER, false, false)
       else (ReturnType.SUCCESS, false, true)) ∧
    edit_comment true d = (none, false) ∧
    delete_comment true dd = (true, false) ∧
    mark_read true = false ∧
    quarantine_opt_in true oi = (true, false) := by
  refine ⟨rfl, rfl, rfl, ?_, rfl, rfl, rfl, rfl⟩
  by_cases hu : u = "[deleted]" <;> simp [send_message, hu]

/-- C10: `send_message` with user name `"[deleted]"` returns the
invalid-user outcome with no external call and no dry-run body logging,
whether or not dry-run mode is on; for any other user name the usual
dry-run/delegation behavior applies. -/
theorem C10_send_message_deleted (np : Bool) (d : ReturnType) (u : String) :
    send_message np "[deleted]" d = (ReturnType.INVALID_USER, false, false) ∧
    (u ≠ "[deleted]" →
      send_message np u d =
        if np then (ReturnType.SUCCESS, false, true) else (d, true, false)) := by
  constructor
  · rfl
  · intro hu
    cases np <;> simp [send_message, hu]

/-- Witness for `C10_send_message_deleted` at `np = true`, `u = "alice"`,
delegate outcome `FORBIDDEN`. -/
theorem C10_send_message_deleted_witness :
    send_message true "[deleted]" ReturnType.FORBIDDEN =
      (ReturnType.INVALID_USER, false, false) ∧
    send_message true "alice" ReturnType.FORBIDDEN =
      (ReturnType.SUCCESS, false, true) := by
  refine ⟨(C10_send_message_deleted true ReturnType.FORBIDDEN "alice").1, ?_⟩
  have h := (C10_send_message_deleted true ReturnType.FORBIDDEN "alice").2 (by decide)
  simpa using h

/-! ### C8 — existence probes -/

/-- C8 counterexample to the claim as stated: `redditor_exists` on a
forbidden fetch does not return `false` — the exception propagates
(only not-found is caught at lines 232–240). -/
theorem C8_counterexample :
    redditor_exists FetchResult.forbidden = Except.error FetchResult.forbidden ∧
    redditor_exists FetchResult.forbidden ≠ Except.ok false := by
  refine ⟨rfl, ?_⟩
  intro h
  cases h

/-- C8 (corrected): `subreddit_exists` forces a fetch and returns `false`
on not-found, redirect, forbidden or bad-request, `true` on success, and
propagates any other exception; `redditor_exists` returns `false` only on
not-found and `true` on success, while redirect, forbidden, bad-request
and any other exception all propagate to the caller. -/
theorem C8_exists_probes :
    subreddit_exists FetchResult.ok = Except.ok true ∧
    subreddit_exists FetchResult.notFound = Except.ok false ∧
    subreddit_exists FetchResult.redirect = Except.ok false ∧
    subreddit_exists FetchResult.forbidden = Except.ok false ∧
    subreddit_exists FetchResult.badRequest = Except.ok false ∧
    subreddit_exists FetchResult.otherError = Except.error FetchResult.otherError ∧
    redditor_exists FetchResult.ok = Except.ok true ∧
    redditor_exists FetchResult.notFound = Except.ok false ∧
    redditor_exists FetchResult.redirect = Except.error FetchResult.redirect ∧
    redditor_exists FetchResult.forbidden = Except.error FetchResult.forbidden ∧
    redditor_exists FetchResult.badRequest = Except.error FetchResult.badRequest ∧
    redditor_exists FetchResult.otherError = Except.error FetchResult.otherError :=
  ⟨rfl, rfl, rfl, rfl, rfl, rfl, rfl, rfl, rfl, rfl, rfl, rfl⟩

/-! ### C5, C6 — the bounded recency set -/

lemma toFinset_append_singleton (l : List Nat) (x : Nat) :
    (l ++ [x]).toFinset = insert x l.toFinset := by
  ext a
  simp [or_comm]

lemma Queue.putList_append (q : Queue) (xs ys : List Nat) :
    q.putList (xs ++ ys) = (q.putList xs).bind (fun q' => q'.putList ys) := by
  induction xs generalizing q with
  | nil => rfl
  | cons x xs ih =>
    simp only [List.cons_append, Queue.putList]
    cases q.put x with
    | none => rfl
    | some q' => simp [ih]

lemma Queue.putList_singleton (q : Queue) (x : Nat) : q.putList [x] = q.put x := by
  cases h : q.put x <;> simp [Queue.putList, h]

lemma Queue.put_not_full (lst : List Nat) (m : Nat) (s : Finset Nat) (x : Nat)
    (h : ¬ m ≤ lst.length) :
    Queue.put ⟨lst, m, s⟩ x = some ⟨lst ++ [x], m, insert x s⟩ := by
  simp only [Queue.put, if_neg h]

lemma Queue.put_full (m : Nat) (d : Nat) (dtail : List Nat) (s : Finset Nat) (x : Nat)
    (hfull : m ≤ (d :: dtail).length) (hmem : d ∈ s) :
    Queue.put ⟨d :: dtail, m, s⟩ x = some ⟨dtail ++ [x], m, insert x (s.erase d)⟩ := by
  simp only [Queue.put, if_pos hfull, if_pos hmem]

/-- After inserting pairwise-distinct items `xs` into an empty queue of
positive capacity `N`, the backing list is the longest suffix of `xs` of
length at most `N` and the membership set is exactly its contents. -/
lemma putList_mk0_eq (N : Nat) (hN : 0 < N) (xs : List Nat) (hnd : xs.Nodup) :
    Queue.putList (Queue.mk0 N) xs =
      some ⟨xs.drop (xs.length - N), N, (xs.drop (xs.length - N)).toFinset⟩ := by
  induction xs using List.reverseRecOn with
  | nil => simp [Queue.putList, Queue.mk0]
  | append_singleton l x ih =>
    have hl : l.Nodup := (List.nodup_append.mp hnd).1
    have hbind : (Queue.mk0 N).putList (l ++ [x]) =
        Queue.put ⟨l.drop (l.length - N), N, (l.drop (l.length - N)).toFinset⟩ x := by
      rw [Queue.putList_append, ih hl, Option.some_bind, Queue.putList_singleton]
    rcases Nat.lt_or_ge l.length N with hlt | hge
    · -- the queue is not yet full: the new item is appended
      have h0 : l.length - N = 0 := by omega
      have hx0 : (l ++ [x]).length - N = 0 := by simp; omega
      rw [hbind, h0, List.drop_zero, Queue.put_not_full _ _ _ _ (by omega),
        hx0, List.drop_zero, toFinset_append_singleton]
    · -- the queue is full: the oldest entry is evicted
      have hdN : (l.drop (l.length - N)).length = N := by
        rw [List.length_drop]; omega
      have hdnd : (l.drop (l.length - N)).Nodup :=
        List.Nodup.sublist (List.drop_sublist _ _) hl
      obtain ⟨d, dtail, hcons⟩ : ∃ d dtail, l.drop (l.length - N) = d :: dtail := by
        cases hc : l.drop (l.length - N) with
        | nil => rw [hc] at hdN; simp at hdN; omega
        | cons a b => exact ⟨a, b, rfl⟩
      have hdnotin : d ∉ dtail.toFinset := by
        rw [hcons] at hdnd
        simpa using (List.nodup_cons.mp hdnd).1
      rw [hbind, hcons, Queue.put_full N d dtail _ x (by rw [← hcons]; omega) (by simp),
        List.toFinset_cons, Finset.erase_insert hdnotin]
      have hlen1 : (l ++ [x]).length - N = (l.length - N) + 1 := by simp; omega
      have hdrop : (l ++ [x]).drop ((l.length - N) + 1) =
          l.drop ((l.length - N) + 1) ++ [x] :=
        List.drop_append_of_le_length (by omega)
      have htail : l.drop ((l.length - N) + 1) = dtail := by
        rw [← List.tail_drop, hcons, List.tail_cons]
      rw [hlen1, hdrop, htail, toFinset_append_singleton]


/-- C5: for pairwise-distinct insertions `xs` with `|xs| ≥ N` into an
empty recency set of capacity `N > 0`, every `put` succeeds and
`contains x` is true exactly for the `N` most recently inserted items
(the length-`N` suffix of `xs`). -/
theorem C5_recency_fifo (N : Nat) (xs : List Nat) (x : Nat)
    (hN : 0 < N) (hnd : xs.Nodup) (hM : N ≤ xs.length) :
    ∃ q, Queue.putList (Queue.mk0 N) xs = some q ∧
      (q.contains x = true ↔ x ∈ xs.drop (xs.length - N)) := by
  refine ⟨_, putList_mk0_eq N hN xs hnd, ?_⟩
  simp [Queue.contains]

/-- Witness for `C5_recency_fifo`: capacity 2, insertions `[1, 2, 3]` —
item 1 has been evicted, so `contains 1` is false while the suffix
`[2, 3]` is retained. -/
theorem C5_recency_fifo_witness :
    ∃ q, Queue.putList (Queue.mk0 2) [1, 2, 3] = some q ∧
      (q.contains 1 = true ↔ 1 ∈ [1, 2, 3].drop ([1, 2, 3].length - 2)) :=
  C5_recency_fifo 2 [1, 2, 3] 1 (by decide) (by decide) (by decide)

/-- C6: every recency set reachable from the empty set by `put` calls of
pairwise-distinct items satisfies the representation invariant: the
membership set holds exactly the elements of the backing list. -/
theorem C6_set_eq_list (N : Nat) (xs : List Nat) (q : Queue)
    (hnd : xs.Nodup) (h : Queue.putList (Queue.mk0 N) xs = some q) :
    q.set = q.list.toFinset := by
  cases N with
  | zero =>
    cases xs with
    | nil =>
      simp only [Queue.putList, Option.some.injEq] at h
      rw [← h]
      rfl
    | cons y ys =>
      simp [Queue.putList, Queue.put, Queue.mk0] at h
  | succ n =>
    rw [putList_mk0_eq (n + 1) (Nat.succ_pos n) xs hnd, Option.some.injEq] at h
    rw [← h]

/-- Witness for `C6_set_eq_list` at capacity 1 after inserting 4. -/
theorem C6_set_eq_list_witness :
    Queue.set ⟨[4], 1, {4}⟩ = List.toFinset [4] :=
  C6_set_eq_list 1 [4] ⟨[4], 1, {4}⟩ (by decide) (by decide)

/-! ### C2 — the backfill scan -/

/-- On a page whose timestamps are descending, the break-at-first-older
scan keeps exactly the comments at or after the cutoff whose ids are not
in the recency set, and reports whether it hit an older comment. -/
lemma pageScan_eq (ls : Int) (s : Finset Nat) (l : List PsComment)
    (hsorted : l.Pairwise (fun a b => b.created_utc ≤ a.created_utc)) :
    pageScan ls s l =
      (l.filter (fun c => decide (ls ≤ c.created_utc) && decide (c.id ∉ s)),
       l.any (fun c => decide (c.created_utc < ls))) := by
  induction l with
  | nil => rfl
  | cons c rest ih =>
    rcases List.pairwise_cons.mp hsorted with ⟨hhead, htail⟩
    by_cases hc : ls > c.created_utc
    · have hfilter :
          (c :: rest).filter (fun c => decide (ls ≤ c.created_utc) && decide (c.id ∉ s)) = [] := by
        rw [List.filter_eq_nil_iff]
        intro a ha
        rcases List.mem_cons.mp ha with rfl | ha'
        · simp only [Bool.and_eq_true, decide_eq_true_iff, not_and]
          intro h1
          omega
        · have hle := hhead a ha'
          simp only [Bool.and_eq_true, decide_eq_true_iff, not_and]
          intro h1
          omega
      have hany : (c :: rest).any (fun c => decide (c.created_utc < ls)) = true :=
        List.any_eq_true.mpr ⟨c, by simp, by simpa using hc⟩
      simp only [pageScan, if_pos hc, hfilter, hany]
    · have hle : ls ≤ c.created_utc := by omega
      have hnlt : ¬ c.created_utc < ls := by omega
      by_cases hid : c.id ∈ s <;>
        simp [pageScan, if_neg hc, ih htail, List.filter_cons, hid, hle, hnlt]

/-- The paging loop, on all-successful nonempty pages whose concatenation
is descending and reaches below the cutoff, returns the accumulator
extended with exactly the filtered comments of all fetched pages. -/
lemma keywordLoop_eq (ls : Int) (s : Finset Nat) (pages : List (List PsComment))
    (acc : List PsComment)
    (hne : ∀ p ∈ pages, p ≠ [])
    (hsorted : pages.flatten.Pairwise (fun a b => b.created_utc ≤ a.created_utc))
    (hfound : ∃ c ∈ pages.flatten, c.created_utc < ls) :
    keywordLoop ls s acc (pages.map some) =
      some (acc ++
        pages.flatten.filter (fun c => decide (ls ≤ c.created_utc) && decide (c.id ∉ s))) := by
  induction pages generalizing acc with
  | nil => simp at hfound
  | cons p rest ih =>
    have hpne : p ≠ [] := hne p (by simp)
    have hpE : p.isEmpty = false := by
      cases p with
      | nil => exact absurd rfl hpne
      | cons a b => rfl
    rw [List.flatten_cons] at hsorted hfound ⊢
    rcases List.pairwise_append.mp hsorted with ⟨hp, hrest, hcross⟩
    simp only [List.map_cons, keywordLoop, hpE, Bool.false_eq_true, if_false,
      pageScan_eq ls s p hp]
    by_cases hany : p.any (fun c => decide (c.created_utc < ls)) = true
    · simp only [hany, if_true]
      rcases List.any_eq_true.mp hany with ⟨cw, hcwmem, hcw⟩
      have hcw' : cw.created_utc < ls := by simpa using hcw
      have hrestnil :
          rest.flatten.filter (fun c => decide (ls ≤ c.created_utc) && decide (c.id ∉ s)) = [] := by
        rw [List.filter_eq_nil_iff]
        intro b hb
        have hble := hcross cw hcwmem b hb
        simp only [Bool.and_eq_true, decide_eq_true_iff, not_and]
        intro h1
        omega
      rw [List.filter_append, hrestnil, List.append_nil]
    · have hany' : p.any (fun c => decide (c.created_utc < ls)) = false :=
        Bool.not_eq_true _ |>.mp hany
      simp only [hany', Bool.false_eq_true, if_false]
      have hfound' : ∃ c ∈ rest.flatten, c.created_utc < ls := by
        rcases hfound with ⟨c, hcmem, hclt⟩
        rcases List.mem_append.mp hcmem with hcp | hcr
        · exact absurd (List.any_eq_true.mpr ⟨c, hcp, by simpa using hclt⟩) hany
        · exact ⟨c, hcr, hclt⟩
      rw [ih _ (fun r hr => hne r (List.mem_cons_of_mem p hr)) hrest hfound',
        List.filter_append, ← List.append_assoc]

/-- C2 (corrected claim, as stated it is false — see `C2_counterexample`):
for a call in which every page fetch succeeds, every page is nonempty,
the fetched comments arrive in descending timestamp order and some
fetched comment is older than the effective boundary, the returned list
contains exactly the fetched comments whose timestamp is *at or after*
the effective boundary and whose id is not in the recency set — where
the effective boundary is `last_seen + 1` when the recency set is empty
at the start of the call (so the boundary item itself is excluded only on
a cold start) and `last_seen` itself otherwise (so an item timestamped
exactly at `last_seen` is returned). -/
theorem C2_backfill_scan (q : Queue) (last_seen ls : Int) (pages : List (List PsComment))
    (hls : ls = if q.list.isEmpty then last_seen + 1 else last_seen)
    (hne : ∀ p ∈ pages, p ≠ [])
    (hsorted : pages.flatten.Pairwise (fun a b => b.created_utc ≤ a.created_utc))
    (hfound : ∃ c ∈ pages.flatten, c.created_utc < ls) :
    get_keyword_comments q last_seen (pages.map some) =
      some (pages.flatten.filter
        (fun c => decide (ls ≤ c.created_utc) && decide (c.id ∉ q.set))) := by
  show keywordLoop (if q.list.isEmpty then last_seen + 1 else last_seen) q.set []
      (pages.map some) = _
  rw [← hls, keywordLoop_eq ls q.set pages [] hne hsorted hfound, List.nil_append]

/-- Witness for `C2_backfill_scan`, at the spec's example: a cold start
(empty recency set), `last_seen = 85`, one page with timestamps
`[100, 90, 80, 70]` — the scan returns the items at 100 and 90. -/
theorem C2_backfill_scan_witness :
    get_keyword_comments (Queue.mk0 100) 85
        ([[⟨1, 100⟩, ⟨2, 90⟩, ⟨3, 80⟩, ⟨4, 70⟩]].map some) =
      some [⟨1, 100⟩, ⟨2, 90⟩] := by
  have h := C2_backfill_scan (Queue.mk0 100) 85 86
    [[⟨1, 100⟩, ⟨2, 90⟩, ⟨3, 80⟩, ⟨4, 70⟩]]
    (by decide) (by decide) (by decide) ⟨⟨3, 80⟩, by decide, by decide⟩
  rw [h]
  rfl

/-- C2 counterexample to the claim as stated: with a nonempty recency set
(`{99}`), `last_seen = 85` and a successful page `[(id 1, t 85),
(id 2, t 80)]`, the scan *returns* the item timestamped exactly at
`last_seen` (the loop breaks only on strictly older timestamps and no
one-second advance happens when the recency set is nonempty), while the
claim requires that item to be excluded. -/
theorem C2_counterexample :
    get_keyword_comments ⟨[99], 100, {99}⟩ 85 [some [⟨1, 85⟩, ⟨2, 80⟩]] =
      some [⟨1, 85⟩] := by
  rfl

/-! ### C9 — idempotent client creation -/

/-- C9: under the `clients` table's unique-name constraint (at most one
row per name), calling `get_or_add_client` twice with the same non-null
name returns a client with the same id both times, the second call leaves
the table exactly as the first call left it (no new row), and the table
then holds exactly one row for that name. -/
theorem C9_get_or_add_client_idempotent (db : IngestDB) (nm : String)
    (huniq : (db.clients.filter (fun c => c.name = some nm)).length ≤ 1) :
    ∃ c1 c2 db1,
      get_or_add_client db (some nm) = (some c1, db1) ∧
      get_or_add_client db1 (some nm) = (some c2, db1) ∧
      c1.id = c2.id ∧
      (db1.clients.filter (fun c => c.name = some nm)).length = 1 := by
  cases hfind : db.clients.find? (fun c => c.name = some nm) with
  | some c =>
    refine ⟨c, c, db, ?_, ?_, rfl, ?_⟩
    · simp [get_or_add_client, hfind]
    · simp [get_or_add_client, hfind]
    · have hcmem : c ∈ db.clients := List.mem_of_find?_eq_some hfind
      have hcp := List.find?_some hfind
      have hmemf : c ∈ db.clients.filter (fun c => c.name = some nm) :=
        List.mem_filter.mpr ⟨hcmem, hcp⟩
      have hpos : 0 < (db.clients.filter (fun c => c.name = some nm)).length :=
        List.length_pos.mpr (List.ne_nil_of_mem hmemf)
      omega
  | none =>
    refine ⟨⟨db.nextId, some nm⟩, ⟨db.nextId, some nm⟩,
      ⟨db.clients ++ [⟨db.nextId, some nm⟩], db.nextId + 1, db.default_client_id⟩,
      ?_, ?_, rfl, ?_⟩
    · simp [get_or_add_client, hfind]
    · simp [get_or_add_client, List.find?_append, hfind]
    · have hnil : db.clients.filter (fun c => c.name = some nm) = [] := by
        rw [List.filter_eq_nil_iff]
        intro a ha
        simpa using List.find?_eq_none.mp hfind a ha
      simp [List.filter_append, hnil]

/-- Witness for `C9_get_or_add_client_idempotent`: an empty database and
the client name `"alice"`. -/
theorem C9_get_or_add_client_idempotent_witness :
    ∃ c1 c2 db1,
      get_or_add_client ⟨[], 0, none⟩ (some "alice") = (some c1, db1) ∧
      get_or_add_client db1 (some "alice") = (some c2, db1) ∧
      c1.id = c2.id ∧
      (db1.clients.filter (fun c => c.name = some "alice")).length = 1 :=
  C9_get_or_add_client_idempotent ⟨[], 0, none⟩ "alice" (by decide)

end PrawWrapper
